import Mathlib

/-!
# Verification of the response-normalization and session logic of
# `src/frontend/src/api/api.js`

The repository's meaningful logic is the Response Normalizer
(`formatBackendResponse` with its helpers `formatProductResults`,
`formatInstallationGuide`, `formatTroubleshooting`) and the Session Client
(`getAIMessage`, `resetSession`).  The JavaScript functions operate on
dynamically-typed JSON values; we embed them shallowly over an inductive
type `JSVal` of JavaScript values, with JavaScript property access,
truthiness, string coercion and array operations made explicit.

Modelling conventions (JavaScript semantics made explicit):
* Property access on `null`/`undefined` throws a `TypeError`; the embedded
  functions therefore return `Except String _`, with `Except.error`
  standing for a thrown exception.  Property access on any other value
  never throws (`optMember`); strings and arrays expose `length`.
* Numbers are modelled by `JSNum`: `int i` is a number of integral value
  (array lengths, integer literals), `dec s` is any other number
  represented by its canonical JavaScript `ToString` rendering (for
  example `dec "9.99"`, `dec "NaN"`).  The code under verification only
  interpolates numbers into strings and compares `length` values with
  `=== 0` / `> 0`, so this representation is exact on all values the code
  computes with.
* `truthy` is JavaScript truthiness; `toJSString` is JavaScript string
  coercion as used by template literals and `+` with a string operand;
  `jsJoin` is `Array.prototype.join` (where `null`/`undefined` elements
  render as the empty string).
* `gtZero v` is the JavaScript comparison `v > 0`; on strings it applies
  the `StringToNumber` conversion (`strGtZero`): trimming, optional sign,
  decimal literals with fraction and exponent, hexadecimal/octal/binary
  literals, and `Infinity`.  The one modelling boundary is floating-point
  range: an exponent past the double range underflows to `0` (or
  overflows to `Infinity`) in JavaScript, while the model reads only the
  written digits; no theorem below depends on `gtZero` at a string or
  object argument, because well-formedness (`arrWhenLooped`,
  `wfListField`) requires every truthy guarded list field to be an actual
  array, whose `length` is a number.
-/

inductive JSNum where
| int (i : Int)
| dec (s : String)
deriving Repr, DecidableEq

inductive JSVal where
| undef
| null
| bool (b : Bool)
| num (n : JSNum)
| str (s : String)
| arr (elems : List JSVal)
| obj (fields : List (String × JSVal))
deriving Repr

/-- JavaScript property access on a value that is not `null`/`undefined`:
returns the field of an object (or `undefined` when absent), the `length`
of an array or string, and `undefined` on every other primitive. -/
def optMember : JSVal → String → JSVal
| .undef, _ => .undef
| .null, _ => .undef
| .bool _, _ => .undef
| .num _, _ => .undef
| .str s, k => if k = "length" then .num (.int s.length) else .undef
| .arr xs, k => if k = "length" then .num (.int xs.length) else .undef
| .obj fs, k => (((fs.find? (fun f => f.1 = k)).map (fun f => f.2)).getD .undef)

/-- JavaScript property access `v.k`: a `TypeError` on `null`/`undefined`,
otherwise `optMember`. -/
def getField : JSVal → String → Except String JSVal
| .undef, k => .error ("TypeError: Cannot read properties of undefined (reading " ++ k ++ ")")
| .null, k => .error ("TypeError: Cannot read properties of null (reading " ++ k ++ ")")
| v, k => .ok (optMember v k)

/-- JavaScript truthiness of a number: `0`, `-0` and `NaN` are falsy. -/
def numTruthy : JSNum → Bool
| .int i => decide (i ≠ 0)
| .dec s => decide (s ≠ "NaN")

/-- JavaScript truthiness. -/
def truthy : JSVal → Bool
| .undef => false
| .null => false
| .bool b => b
| .num n => numTruthy n
| .str s => decide (s ≠ "")
| .arr _ => true
| .obj _ => true

/-- JavaScript `ToString` of a number (canonical rendering). -/
def numToString : JSNum → String
| .int i => toString i
| .dec s => s

mutual

/-- JavaScript string coercion, as performed by template literals and by
`+` with a string operand.  Arrays render as their elements joined by
commas (with `null`/`undefined` elements rendering empty), plain objects
render as `"[object Object]"`. -/
def toJSString : JSVal → String
| .undef => "undefined"
| .null => "null"
| .bool b => cond b "true" "false"
| .num n => numToString n
| .str s => s
| .arr xs => String.intercalate "," (arrElemStrings xs)
| .obj _ => "[object Object]"

/-- Element rendering used by array `ToString`/`join`: `null` and
`undefined` render as the empty string. -/
def arrElemStrings : List JSVal → List String
| [] => []
| .undef :: vs => "" :: arrElemStrings vs
| .null :: vs => "" :: arrElemStrings vs
| v :: vs => toJSString v :: arrElemStrings vs

end

/-- `Array.prototype.join` with a separator. -/
def jsJoin (xs : List JSVal) (sep : String) : String :=
  String.intercalate sep (arrElemStrings xs)

/-- The JavaScript comparison `n > 0` on a number. -/
def numGtZero : JSNum → Bool
| .int i => decide (0 < i)
| .dec s => (!(s = "NaN" : Bool)) && (!(s.startsWith "-"))

/-- Whether `c` is a hexadecimal digit. -/
def isHexDigitChar (c : Char) : Bool :=
  c.isDigit || ('a' ≤ c && c ≤ 'f') || ('A' ≤ c && c ≤ 'F')

/-- Split a character list at the first exponent marker `e`/`E`:
returns the mantissa characters and, when a marker is present, the
characters after it. -/
def splitOnExp : List Char → List Char × Option (List Char)
| [] => ([], none)
| c :: rest =>
  if c = 'e' || c = 'E' then ([], some rest)
  else
    let me := splitOnExp rest
    (c :: me.1, me.2)

/-- The mantissa of a JavaScript unsigned decimal literal: at least one
digit, only digits and at most one decimal point (`"1"`, `"1."`,
`".5"`, `"1.5"`; not `"."` or `"1.2.3"`). -/
def mantissaValid (l : List Char) : Bool :=
  (!(l = [] : Bool)) && l.all (fun c => c.isDigit || c = '.')
    && (l.filter (fun c => c = '.')).length ≤ 1
    && l.any Char.isDigit

/-- The exponent part of a JavaScript decimal literal: an optional sign
followed by at least one digit. -/
def exponentValid (l : List Char) : Bool :=
  let l2 := match l with
    | '+' :: rest => rest
    | '-' :: rest => rest
    | rest => rest
  (!(l2 = [] : Bool)) && l2.all Char.isDigit

/-- JavaScript `ToNumber(s) > 0` for a string, per the `StringToNumber`
grammar: after trimming, the empty string is `0`; `0x`/`0o`/`0b`
literals are positive when they have a nonzero digit; otherwise an
optional sign precedes `Infinity` or an unsigned decimal literal
(optional fraction and exponent), which is positive when unsigned, of
valid shape and with a nonzero mantissa digit; every other string is
`NaN` and compares false.  (Floating-point range is not modelled: an
exponent so far below the double range that the value underflows to `0`
still counts as positive here; no theorem applies `gtZero` to a string,
see the header.) -/
def strGtZero (s : String) : Bool :=
  let t := s.trim
  if t = "" then false
  else if t.startsWith "0x" || t.startsWith "0X" then
    let ds := (t.drop 2).toList
    (!(ds = [] : Bool)) && ds.all isHexDigitChar && ds.any (fun c => c ≠ '0')
  else if t.startsWith "0o" || t.startsWith "0O" then
    let ds := (t.drop 2).toList
    (!(ds = [] : Bool)) && ds.all (fun c => '0' ≤ c && c ≤ '7')
      && ds.any (fun c => c ≠ '0')
  else if t.startsWith "0b" || t.startsWith "0B" then
    let ds := (t.drop 2).toList
    (!(ds = [] : Bool)) && ds.all (fun c => c = '0' || c = '1')
      && ds.any (fun c => c = '1')
  else
    let neg := t.startsWith "-"
    let u := if t.startsWith "-" || t.startsWith "+" then t.drop 1 else t
    if u = "Infinity" then !neg
    else
      let me := splitOnExp u.toList
      (!neg) && mantissaValid me.1
        && (match me.2 with
            | none => true
            | some ex => exponentValid ex)
        && me.1.any (fun c => c.isDigit && c ≠ '0')

/-- The JavaScript comparison `v > 0`. -/
def gtZero : JSVal → Bool
| .undef => false
| .null => false
| .bool b => b
| .num n => numGtZero n
| .str s => strGtZero s
| .arr xs => strGtZero (toJSString (.arr xs))
| .obj _ => false

/-- The JavaScript strict comparison `v === 0`. -/
def strictEqZero : JSVal → Bool
| .num (.int i) => decide (i = 0)
| _ => false

/-- `Array.prototype.forEach`/`join` receiver check: the element list of
an array, a `TypeError` on every other value. -/
def jsElems : JSVal → Except String (List JSVal)
| .arr xs => .ok xs
| _ => .error "TypeError: not an array"

/-- The `{role, content}` message object produced by the API layer.  The
`content` is a `JSVal` because on malformed payloads the JavaScript code
can store a non-string (for example `undefined`) in the `content` slot. -/
structure ChatMessage where
  role : String
  content : JSVal
deriving Repr

/-- The JavaScript strict comparison `v === lit` against a string literal,
as performed by a `switch` statement with string cases. -/
def strictEqStr (v : JSVal) (lit : String) : Bool :=
  match v with
  | .str s => decide (s = lit)
  | _ => false

/-!
## The Response Normalizer, translated from `api.js`

`formatProductResults`, `formatInstallationGuide` and
`formatTroubleshooting` destructure `const { content, data } = response`
and build a markdown string with `forEach` loops; the loops are embedded
as structural recursions carrying the JavaScript loop index.  Guard
expressions such as `!data || !data.products || data.products.length === 0`
are evaluated with `optMember`, which agrees with JavaScript member access
at every point where the guard actually evaluates the member (short
circuiting guarantees the receiver is truthy, hence not nullish, there).
-/

/-- The recurring `if (x && x.length > 0) { ...x.join or x.forEach... }`
pattern of the formatters: render a section from the elements of an
optional list field when it is present and non-empty, and the empty
string otherwise.  `body` receives the field's element list (`forEach`
and `join` throw a `TypeError` when the guarded value is not an
array). -/
def guardedSection (v : JSVal) (body : List JSVal → Except String String) :
    Except String String :=
  if truthy v && gtZero (optMember v "length") then do
    let xs ← jsElems v
    body xs
  else pure ""

/-- One iteration of the `data.products.forEach((product, index) => ...)`
body of `formatProductResults` (api.js lines 146-155). -/
def formatOneProduct (product : JSVal) (index : Nat) : Except String String := do
  let name ← getField product "name"
  let id ← getField product "id"
  let price ← getField product "price"
  let descr ← getField product "description"
  let compat ← getField product "compatibility"
  let compatPart ← guardedSection compat
    (fun xs => pure ("   Compatible with: " ++ jsJoin xs ", " ++ "\n"))
  let inStock ← getField product "inStock"
  pure ("**" ++ toString (index + 1) ++ ". " ++ toJSString name ++ "**\n"
    ++ "   ID: " ++ toJSString id ++ "\n"
    ++ "   Price: $" ++ toJSString price ++ "\n"
    ++ "   Description: " ++ toJSString descr ++ "\n"
    ++ compatPart
    ++ "   In Stock: " ++ (if truthy inStock then "Yes" else "No") ++ "\n\n")

/-- The `forEach` loop of `formatProductResults`, starting at index `i`. -/
def formatProductsFrom : List JSVal → Nat → Except String String
| [], _ => .ok ""
| p :: ps, i => do
  let s ← formatOneProduct p i
  let rest ← formatProductsFrom ps (i + 1)
  pure (s ++ rest)

/-- `formatProductResults` (api.js lines 137-158). -/
def formatProductResults (response : JSVal) : Except String JSVal := do
  let content ← getField response "content"
  let data ← getField response "data"
  if !truthy data || !truthy (optMember data "products")
      || strictEqZero (optMember (optMember data "products") "length") then
    pure (if truthy content then content else .str "No products found")
  else do
    let products ← jsElems (optMember data "products")
    let body ← formatProductsFrom products 0
    pure (.str (toJSString content ++ "\n\n" ++ body))

/-- One iteration of the `data.steps.forEach((step) => ...)` body of
`formatInstallationGuide` (api.js lines 177-199). -/
def formatOneStep (step : JSVal) : Except String String := do
  let stepNo ← getField step "step"
  let instr ← getField step "instruction"
  let tools ← getField step "tools"
  let toolsPart ← guardedSection tools
    (fun xs => pure ("   🔧 Tools needed: " ++ jsJoin xs ", " ++ "\n"))
  let tips ← getField step "tips"
  let tipsPart ← guardedSection tips
    (fun xs => pure ("   💡 Tips:\n"
      ++ String.join (xs.map (fun tip => "      - " ++ toJSString tip ++ "\n"))))
  let warnings ← getField step "warnings"
  let warningsPart ← guardedSection warnings
    (fun xs => pure ("   ⚠️ Warnings:\n"
      ++ String.join (xs.map (fun w => "      - " ++ toJSString w ++ "\n"))))
  pure ("**Step " ++ toJSString stepNo ++ ": " ++ toJSString instr ++ "**\n"
    ++ toolsPart ++ tipsPart ++ warningsPart ++ "\n")

/-- The `forEach` loop of `formatInstallationGuide`. -/
def formatStepsList : List JSVal → Except String String
| [] => .ok ""
| st :: sts => do
  let s ← formatOneStep st
  let rest ← formatStepsList sts
  pure (s ++ rest)

/-- `formatInstallationGuide` (api.js lines 166-202). -/
def formatInstallationGuide (response : JSVal) : Except String JSVal := do
  let content ← getField response "content"
  let data ← getField response "data"
  if !truthy data || !truthy (optMember data "steps")
      || strictEqZero (optMember (optMember data "steps") "length") then
    pure (if truthy content then content else .str "No installation steps available")
  else do
    let steps ← jsElems (optMember data "steps")
    let body ← formatStepsList steps
    pure (.str (toJSString content ++ "\n\n"
      ++ "⏱️ Estimated Time: " ++ toJSString (optMember data "estimatedTime") ++ " minutes\n"
      ++ "📊 Difficulty: " ++ toJSString (optMember data "difficulty") ++ "\n\n"
      ++ body))

/-- The `if (data && data.k && data.k.length > 0) { ...forEach... }`
pattern of `formatTroubleshooting`: render a section from `data.k` when
`data` is truthy and `data.k` is present and non-empty. -/
def troubleSection (data : JSVal) (k : String)
    (body : List JSVal → Except String String) : Except String String :=
  if truthy data && truthy (optMember data k)
      && gtZero (optMember (optMember data k) "length") then do
    let xs ← jsElems (optMember data k)
    body xs
  else pure ""

/-- One iteration of the `data.possibleCauses.forEach((cause, index) => ...)`
body of `formatTroubleshooting` (api.js lines 219-223). -/
def formatOneCause (cause : JSVal) (index : Nat) : Except String String := do
  let c ← getField cause "cause"
  let prob ← getField cause "probability"
  let descr ← getField cause "description"
  let fix ← getField cause "fix"
  pure (toString (index + 1) ++ ". **" ++ toJSString c ++ "** ("
      ++ toJSString prob ++ " probability)\n"
    ++ "   Description: " ++ toJSString descr ++ "\n"
    ++ "   Fix: " ++ toJSString fix ++ "\n\n")

/-- The `possibleCauses` loop of `formatTroubleshooting`. -/
def formatCausesFrom : List JSVal → Nat → Except String String
| [], _ => .ok ""
| c :: cs, i => do
  let s ← formatOneCause c i
  let rest ← formatCausesFrom cs (i + 1)
  pure (s ++ rest)

/-- One iteration of the `data.suggestedSolutions.forEach((solution, index)
=> ...)` body of `formatTroubleshooting` (api.js lines 230-246). -/
def formatOneSolution (solution : JSVal) (index : Nat) : Except String String := do
  let title ← getField solution "title"
  let steps ← getField solution "steps"
  let stepsPart ← guardedSection steps
    (fun xs => pure (String.join (xs.enum.map
      (fun si => "   " ++ toString (si.1 + 1) ++ ". " ++ toJSString si.2 ++ "\n"))))
  let est ← getField solution "estimatedTime"
  let recParts ← getField solution "recommendedParts"
  let recPart ← guardedSection recParts
    (fun xs => pure ("   🛠️ Recommended Parts: " ++ jsJoin xs ", " ++ "\n"))
  pure ("**Solution " ++ toString (index + 1) ++ ": " ++ toJSString title ++ "**\n"
    ++ stepsPart
    ++ "   ⏱️ Estimated Time: " ++ toJSString est ++ " minutes\n"
    ++ recPart ++ "\n")

/-- The `suggestedSolutions` loop of `formatTroubleshooting`. -/
def formatSolutionsFrom : List JSVal → Nat → Except String String
| [], _ => .ok ""
| s :: ss, i => do
  let one ← formatOneSolution s i
  let rest ← formatSolutionsFrom ss (i + 1)
  pure (one ++ rest)

/-- `formatTroubleshooting` (api.js lines 210-250). -/
def formatTroubleshooting (response : JSVal) : Except String String := do
  let content ← getField response "content"
  let data ← getField response "data"
  let causesPart ← troubleSection data "possibleCauses"
    (fun xs => do
      let body ← formatCausesFrom xs 0
      pure ("**Possible Causes:**\n\n" ++ body))
  let solutionsPart ← troubleSection data "suggestedSolutions"
    (fun xs => do
      let body ← formatSolutionsFrom xs 0
      pure ("**Suggested Solutions:**\n\n" ++ body))
  pure (toJSString content ++ "\n\n" ++ causesPart ++ solutionsPart)

/-- The `switch (response.type)` block of `formatBackendResponse`
(api.js lines 89-123), computing the `content` variable: `===` dispatch
against the six known tags with a pass-through default. -/
def switchContent (ty response : JSVal) : Except String JSVal :=
  if strictEqStr ty "text" then getField response "content"
  else if strictEqStr ty "product_results" then formatProductResults response
  else if strictEqStr ty "installation_guide" then formatInstallationGuide response
  else if strictEqStr ty "troubleshooting" then do
    let s ← formatTroubleshooting response
    pure (JSVal.str s)
  else if strictEqStr ty "out_of_scope" then getField response "content"
  else if strictEqStr ty "error" then do
    let c ← getField response "content"
    pure (JSVal.str ("Error: " ++ toJSString c))
  else getField response "content"

/-- `formatBackendResponse` (api.js lines 76-129): the Response
Normalizer.  The `data.error?.message || "An error occurred"` fallback
uses optional chaining (`optMember` on the `error` value); the `switch`
on `response.type` is `switchContent`. -/
def formatBackendResponse (data : JSVal) : Except String ChatMessage := do
  let succ ← getField data "success"
  if !truthy succ then
    let err ← getField data "error"
    let msg := optMember err "message"
    pure ⟨"assistant", if truthy msg then msg else .str "An error occurred"⟩
  else do
    let response ← getField data "response"
    let ty ← getField response "type"
    let content ← switchContent ty response
    pure ⟨"assistant", content⟩

/-!
## The Session Client, translated from `api.js`

`getAIMessage` performs one `fetch` whose result is outside the program;
we parameterize it by a network oracle `net` mapping the JSON request
body to the outcome of the call: a transport error (rejected promise), or
an HTTP response with its `ok` flag, status code and the result of
`response.json()` (which itself may fail on malformed JSON).  The mutable
module variable `currentSessionId` is threaded as explicit state: each
operation receives the current value and returns the new one. -/

/-- The observable outcome of `fetch(BACKEND_URL, ...)` followed by
`response.json()`. -/
inductive FetchOutcome where
| netError (msg : String)
| http (ok : Bool) (status : Nat) (body : Except String JSVal)

/-- The request body `{ message: userQuery, sessionId: currentSessionId }`
built at api.js lines 21-24. -/
def buildRequestBody (userQuery : String) (sessionId : JSVal) : JSVal :=
  .obj [("message", .str userQuery), ("sessionId", sessionId)]

/-- The `catch` branch of `getAIMessage` (api.js lines 59-67): a
synthesized assistant message wrapping the error's message. -/
def errorReply (m : String) : ChatMessage :=
  ⟨"assistant", .str ("Sorry, I encountered an error: " ++ m
    ++ ". Please make sure the backend is running on http://localhost:5000")⟩

/-- `getAIMessage` (api.js lines 18-68), with the session id as explicit
state: returns the produced message and the new `currentSessionId`.
A non-`ok` response throws `Error("Backend error: " + status)`; the
session id is saved (when truthy) before the payload is formatted, so a
formatting failure still keeps the freshly saved session id; every thrown
error is caught and turned into `errorReply`. -/
def getAIMessage (net : JSVal → FetchOutcome) (userQuery : String)
    (sessionId : JSVal) : ChatMessage × JSVal :=
  match net (buildRequestBody userQuery sessionId) with
  | .netError m => (errorReply m, sessionId)
  | .http ok status body =>
    if !ok then (errorReply ("Backend error: " ++ toString status), sessionId)
    else
      match body with
      | .error m => (errorReply m, sessionId)
      | .ok data =>
        match getField data "sessionId" with
        | .error m => (errorReply m, sessionId)
        | .ok sid =>
          let saved := if truthy sid then sid else sessionId
          match formatBackendResponse data with
          | .error m => (errorReply m, saved)
          | .ok msg => (msg, saved)

/-- `resetSession` (api.js lines 256-259): clears `currentSessionId` to
`null`; the returned value is the new session state. -/
def resetSession : JSVal := .null

/-- A value is nullish (`null` or `undefined`) exactly when property
access on it throws. -/
def notNullish : JSVal → Bool
| .null => false
| .undef => false
| _ => true

/-- Whether a value is an array. -/
def isArr : JSVal → Bool
| .arr _ => true
| _ => false

/-- `v.join(", ")` on an array, empty on anything else (used only in
positions where the formatter has already established `v` is an array). -/
def joinedList (v : JSVal) : String :=
  match v with
  | .arr xs => jsJoin xs ", "
  | _ => ""

/-- The `- item` sub-list rendering used for tips and warnings. -/
def bulletLines (v : JSVal) : String :=
  match v with
  | .arr xs => String.join (xs.map (fun x => "      - " ++ toJSString x ++ "\n"))
  | _ => ""

/-- The `   1. step` numbered sub-list rendering used for solution steps. -/
def numberedLines (v : JSVal) : String :=
  match v with
  | .arr xs => String.join (xs.enum.map
      (fun si => "   " ++ toString (si.1 + 1) ++ ". " ++ toJSString si.2 ++ "\n"))
  | _ => ""

/-!
## Per-entry output formulas

The specification describes the normalizer's list output entry-wise: one
numbered block per element, in input order, each block showing the
element's fields.  The following definitions state those per-entry
formulas directly in terms of the entry value's members; the theorems
below prove that the embedded formatters produce exactly these formulas.
-/

/-- The per-product block described by the specification: numbered name
header, then ID, price with a `$` prefix, description, the optional
compatibility list, and the stock line. -/
def productEntry (i : Nat) (p : JSVal) : String :=
  "**" ++ toString (i + 1) ++ ". " ++ toJSString (optMember p "name") ++ "**\n"
  ++ "   ID: " ++ toJSString (optMember p "id") ++ "\n"
  ++ "   Price: $" ++ toJSString (optMember p "price") ++ "\n"
  ++ "   Description: " ++ toJSString (optMember p "description") ++ "\n"
  ++ (if truthy (optMember p "compatibility")
        && gtZero (optMember (optMember p "compatibility") "length")
      then "   Compatible with: " ++ joinedList (optMember p "compatibility") ++ "\n"
      else "")
  ++ "   In Stock: "
  ++ (if truthy (optMember p "inStock") then "Yes" else "No") ++ "\n\n"

/-- The concatenation of product blocks, numbered from `i`. -/
def productEntries : List JSVal → Nat → String
| [], _ => ""
| p :: ps, i => productEntry i p ++ productEntries ps (i + 1)

/-- The per-step block of an installation guide: step number and
instruction, then the optional tools, tips and warnings sections. -/
def stepEntry (st : JSVal) : String :=
  "**Step " ++ toJSString (optMember st "step") ++ ": "
  ++ toJSString (optMember st "instruction") ++ "**\n"
  ++ (if truthy (optMember st "tools")
        && gtZero (optMember (optMember st "tools") "length")
      then "   🔧 Tools needed: " ++ joinedList (optMember st "tools") ++ "\n"
      else "")
  ++ (if truthy (optMember st "tips")
        && gtZero (optMember (optMember st "tips") "length")
      then "   💡 Tips:\n" ++ bulletLines (optMember st "tips")
      else "")
  ++ (if truthy (optMember st "warnings")
        && gtZero (optMember (optMember st "warnings") "length")
      then "   ⚠️ Warnings:\n" ++ bulletLines (optMember st "warnings")
      else "")
  ++ "\n"

/-- The concatenation of step blocks, in input order. -/
def stepEntries : List JSVal → String
| [] => ""
| st :: sts => stepEntry st ++ stepEntries sts

/-- The per-cause block of a troubleshooting reply. -/
def causeEntry (i : Nat) (c : JSVal) : String :=
  toString (i + 1) ++ ". **" ++ toJSString (optMember c "cause") ++ "** ("
  ++ toJSString (optMember c "probability") ++ " probability)\n"
  ++ "   Description: " ++ toJSString (optMember c "description") ++ "\n"
  ++ "   Fix: " ++ toJSString (optMember c "fix") ++ "\n\n"

/-- The concatenation of cause blocks, numbered from `i`. -/
def causeEntries : List JSVal → Nat → String
| [], _ => ""
| c :: cs, i => causeEntry i c ++ causeEntries cs (i + 1)

/-- The per-solution block of a troubleshooting reply. -/
def solutionEntry (i : Nat) (s : JSVal) : String :=
  "**Solution " ++ toString (i + 1) ++ ": " ++ toJSString (optMember s "title") ++ "**\n"
  ++ (if truthy (optMember s "steps")
        && gtZero (optMember (optMember s "steps") "length")
      then numberedLines (optMember s "steps")
      else "")
  ++ "   ⏱️ Estimated Time: " ++ toJSString (optMember s "estimatedTime") ++ " minutes\n"
  ++ (if truthy (optMember s "recommendedParts")
        && gtZero (optMember (optMember s "recommendedParts") "length")
      then "   🛠️ Recommended Parts: " ++ joinedList (optMember s "recommendedParts") ++ "\n"
      else "")
  ++ "\n"

/-- The concatenation of solution blocks, numbered from `i`. -/
def solutionEntries : List JSVal → Nat → String
| [], _ => ""
| s :: ss, i => solutionEntry i s ++ solutionEntries ss (i + 1)

/-!
## Well-formedness

The normalizer throws (`Except.error`) on some malformed payloads, for
example `{success: true}` with no `response`; the predicates below carve
out the payloads on which it is exception-free with a non-empty string
result: the failure branch's `error.message`, when truthy, must be a
string; on the success branch `response` must be non-nullish with a
non-empty string `content`; every list the formatter loops over must
actually be an array, with loop bodies applied to non-nullish elements.
-/

/-- A field that is fed to `join`/`forEach` after the guard
`v && v.length > 0`: well-formedness requires it to be an actual array
whenever it is truthy (a truthy non-array could pass the length guard —
for example `{length: "1e3"}`, whose string length coerces to `1000` —
and then throw a `TypeError` inside the guarded block). -/
def arrWhenLooped (v : JSVal) : Bool :=
  !truthy v || isArr v

/-- A product entry the product loop can process. -/
def wfProduct (p : JSVal) : Bool :=
  notNullish p && arrWhenLooped (optMember p "compatibility")

/-- A step entry the installation-guide loop can process. -/
def wfStep (st : JSVal) : Bool :=
  notNullish st && arrWhenLooped (optMember st "tools")
    && arrWhenLooped (optMember st "tips")
    && arrWhenLooped (optMember st "warnings")

/-- A solution entry the troubleshooting loop can process. -/
def wfSolution (s : JSVal) : Bool :=
  notNullish s && arrWhenLooped (optMember s "steps")
    && arrWhenLooped (optMember s "recommendedParts")

/-- `v` is an array all of whose elements satisfy `elemOk`. -/
def allElems (v : JSVal) (elemOk : JSVal → Bool) : Bool :=
  match v with
  | .arr xs => xs.all elemOk
  | _ => false

/-- A list-valued field: either falsy (absent) or an actual array of
well-formed elements. -/
def wfListField (v : JSVal) (elemOk : JSVal → Bool) : Bool :=
  !truthy v || allElems v elemOk

/-- The rendered `Possible Causes` section for an array value. -/
def causesSection (v : JSVal) : String :=
  match v with
  | .arr xs => "**Possible Causes:**\n\n" ++ causeEntries xs 0
  | _ => ""

/-- The rendered `Suggested Solutions` section for an array value. -/
def solutionsSection (v : JSVal) : String :=
  match v with
  | .arr xs => "**Suggested Solutions:**\n\n" ++ solutionEntries xs 0
  | _ => ""

/-- Well-formed `data` for `product_results`. -/
def wfProductsData (d : JSVal) : Bool :=
  !truthy d || wfListField (optMember d "products") wfProduct

/-- Well-formed `data` for `installation_guide`. -/
def wfGuideData (d : JSVal) : Bool :=
  !truthy d || wfListField (optMember d "steps") wfStep

/-- Well-formed `data` for `troubleshooting`. -/
def wfTroubleData (d : JSVal) : Bool :=
  !truthy d || (wfListField (optMember d "possibleCauses") notNullish
    && wfListField (optMember d "suggestedSolutions") wfSolution)

/-- A non-empty string value. -/
def isNonemptyStr : JSVal → Bool
| .str s => decide (s ≠ "")
| _ => false

/-- A string, or falsy (so that `x || fallback` yields a string). -/
def strOrFalsy : JSVal → Bool
| .str _ => true
| v => !truthy v

/-- Payloads on which the normalizer is exception-free with a non-empty
string result: see the section comment above. -/
def wfPayload (p : JSVal) : Bool :=
  notNullish p &&
  (if truthy (optMember p "success") then
    notNullish (optMember p "response")
    && isNonemptyStr (optMember (optMember p "response") "content")
    && (!strictEqStr (optMember (optMember p "response") "type") "product_results"
        || wfProductsData (optMember (optMember p "response") "data"))
    && (!strictEqStr (optMember (optMember p "response") "type") "installation_guide"
        || wfGuideData (optMember (optMember p "response") "data"))
    && (!strictEqStr (optMember (optMember p "response") "type") "troubleshooting"
        || wfTroubleData (optMember (optMember p "response") "data"))
  else
    strOrFalsy (optMember (optMember p "error") "message"))

/-!
## Basic lemmas about the embedded JavaScript semantics
-/

theorem except_bind_ok {α β : Type} (a : α) (f : α → Except String β) :
    (Except.ok a >>= f : Except String β) = f a := rfl

theorem except_bind_error {α β : Type} (e : String) (f : α → Except String β) :
    (Except.error e >>= f : Except String β) = Except.error e := rfl

theorem except_pure_eq {α : Type} (a : α) :
    (pure a : Except String α) = Except.ok a := rfl

theorem getField_eq_ok (v : JSVal) (k : String) (h : notNullish v = true) :
    getField v k = .ok (optMember v k) := by
  cases v <;> simp [notNullish] at h ⊢ <;> rfl

theorem notNullish_of_getField_ok {v x : JSVal} {k : String}
    (h : getField v k = .ok x) : notNullish v = true := by
  cases v <;> simp [getField, notNullish] at h ⊢

theorem optMember_of_getField_ok {v x : JSVal} {k : String}
    (h : getField v k = .ok x) : optMember v k = x := by
  cases v <;> simp [getField] at h ⊢ <;> exact h

theorem notNullish_of_optMember_str {v : JSVal} {k s : String}
    (h : optMember v k = .str s) : notNullish v = true := by
  cases v <;> simp [optMember, notNullish] at h ⊢

theorem strictEqStr_false_of_ne {v : JSVal} {t : String} (h : v ≠ .str t) :
    strictEqStr v t = false := by
  cases v <;> simp [strictEqStr]
  intro he
  exact h (by rw [he])

/-- On the `Except` plumbing of the normalizer, the final message always
carries the role `"assistant"`. -/
theorem role_of_content_bind (x : Except String JSVal) (m : ChatMessage)
    (h : (x >>= fun content => pure (⟨"assistant", content⟩ : ChatMessage)) = .ok m) :
    m.role = "assistant" := by
  cases x with
  | error e => cases h
  | ok c => cases h; rfl

/-- Every message produced by `formatBackendResponse` has role
`"assistant"`. -/
theorem fbr_role (p : JSVal) (m : ChatMessage)
    (h : formatBackendResponse p = .ok m) : m.role = "assistant" := by
  unfold formatBackendResponse at h
  cases hsucc : getField p "success" <;> rw [hsucc] at h
  · cases h
  · rw [except_bind_ok] at h
    split at h
    · cases herr : getField p "error" <;> rw [herr] at h
      · cases h
      · rw [except_bind_ok] at h
        cases h
        rfl
    · cases hresp : getField p "response" <;> rw [hresp] at h
      · cases h
      · rw [except_bind_ok] at h
        cases hty : getField _ "type" <;> rw [hty] at h
        · cases h
        · rw [except_bind_ok] at h
          exact role_of_content_bind (switchContent _ _) m h

/-- On a successful payload with a non-nullish `response`, the normalizer
is the `switch` on `response.type` followed by wrapping into an assistant
message. -/
theorem fbr_success_eq (p s r : JSVal)
    (hs : getField p "success" = .ok s) (hts : truthy s = true)
    (hr : getField p "response" = .ok r) (hnr : notNullish r = true) :
    formatBackendResponse p
      = (switchContent (optMember r "type") r
          >>= fun content => pure ⟨"assistant", content⟩) := by
  unfold formatBackendResponse
  rw [hs, except_bind_ok, hts]
  simp only [Bool.not_true, Bool.false_eq_true, if_false]
  rw [hr, except_bind_ok, getField_eq_ok r "type" hnr, except_bind_ok]

/-- C6: for every successful payload whose `response.type` is not one of
the four specially formatted tags (`product_results`,
`installation_guide`, `troubleshooting`, `error`) — which covers `text`,
`out_of_scope` and every unknown tag — the normalizer returns
`response.content` unchanged (pass-through law). -/
theorem claim6_passthrough_law (p s r : JSVal)
    (hs : getField p "success" = .ok s) (hts : truthy s = true)
    (hr : getField p "response" = .ok r) (hnr : notNullish r = true)
    (h1 : optMember r "type" ≠ .str "product_results")
    (h2 : optMember r "type" ≠ .str "installation_guide")
    (h3 : optMember r "type" ≠ .str "troubleshooting")
    (h4 : optMember r "type" ≠ .str "error") :
    formatBackendResponse p = .ok ⟨"assistant", optMember r "content"⟩ := by
  rw [fbr_success_eq p s r hs hts hr hnr]
  have hsw : switchContent (optMember r "type") r = getField r "content" := by
    unfold switchContent
    rw [strictEqStr_false_of_ne h1, strictEqStr_false_of_ne h2,
      strictEqStr_false_of_ne h3, strictEqStr_false_of_ne h4]
    cases ht : strictEqStr (optMember r "type") "text" <;>
      cases ho : strictEqStr (optMember r "type") "out_of_scope" <;>
      simp
  rw [hsw, getField_eq_ok r "content" hnr, except_bind_ok]
  rfl

/-- Witness for C6 at the concrete successful payload
`{success: true, response: {type: "mystery", content: "Hi"}}`. -/
theorem claim6_witness :
    getField (JSVal.obj [("success", .bool true),
        ("response", .obj [("type", .str "mystery"), ("content", .str "Hi")])])
        "success" = .ok (.bool true)
    ∧ formatBackendResponse (JSVal.obj [("success", .bool true),
        ("response", .obj [("type", .str "mystery"), ("content", .str "Hi")])])
      = .ok ⟨"assistant", .str "Hi"⟩ := by
  refine ⟨rfl, ?_⟩
  exact claim6_passthrough_law _ (.bool true)
    (.obj [("type", .str "mystery"), ("content", .str "Hi")])
    rfl rfl rfl rfl
    (by change JSVal.str "mystery" ≠ JSVal.str "product_results"; simp)
    (by change JSVal.str "mystery" ≠ JSVal.str "installation_guide"; simp)
    (by change JSVal.str "mystery" ≠ JSVal.str "troubleshooting"; simp)
    (by change JSVal.str "mystery" ≠ JSVal.str "error"; simp)

/-- When `data` is absent, `data.products` is absent, or `data.products`
is the empty array, `formatProductResults` takes its early-return branch:
`content || "No products found"`. -/
theorem formatProductResults_fallback (r : JSVal) (hnr : notNullish r = true)
    (hcase : optMember r "data" = .undef
      ∨ optMember (optMember r "data") "products" = .undef
      ∨ optMember (optMember r "data") "products" = .arr []) :
    formatProductResults r
      = .ok (if truthy (optMember r "content") then optMember r "content"
             else .str "No products found") := by
  unfold formatProductResults
  rw [getField_eq_ok r "content" hnr, except_bind_ok,
    getField_eq_ok r "data" hnr, except_bind_ok]
  have hguard : (!truthy (optMember r "data")
      || !truthy (optMember (optMember r "data") "products")
      || strictEqZero (optMember (optMember (optMember r "data") "products") "length"))
      = true := by
    rcases hcase with h | h | h <;> rw [h] <;> simp [truthy, optMember, strictEqZero]
  rw [hguard]
  rfl

/-- The `switch` sends the tag `product_results` to
`formatProductResults`. -/
theorem switchContent_products (r : JSVal) :
    switchContent (.str "product_results") r = formatProductResults r := by
  unfold switchContent
  simp [strictEqStr]

/-- C7: for every `product_results` payload in which `data` is absent,
`data.products` is absent, or `data.products` is the empty array, the
normalizer returns `content` when it is truthy and the fallback
`"No products found"` otherwise. -/
theorem claim7_products_fallback (p s r : JSVal)
    (hs : getField p "success" = .ok s) (hts : truthy s = true)
    (hr : getField p "response" = .ok r)
    (hty : optMember r "type" = .str "product_results")
    (hcase : optMember r "data" = .undef
      ∨ optMember (optMember r "data") "products" = .undef
      ∨ optMember (optMember r "data") "products" = .arr []) :
    formatBackendResponse p
      = .ok ⟨"assistant",
          if truthy (optMember r "content") then optMember r "content"
          else .str "No products found"⟩ := by
  have hnr := notNullish_of_optMember_str hty
  rw [fbr_success_eq p s r hs hts hr hnr, hty, switchContent_products r,
    formatProductResults_fallback r hnr hcase, except_bind_ok]
  rfl

/-- Witness for C7: a `product_results` payload with empty
`data.products` and empty `content` falls back to `"No products found"`. -/
theorem claim7_witness :
    optMember (JSVal.obj [("type", .str "product_results"),
        ("content", .str ""), ("data", .obj [("products", .arr [])])]) "type"
      = .str "product_results"
    ∧ formatBackendResponse (JSVal.obj [("success", .bool true),
        ("response", .obj [("type", .str "product_results"),
          ("content", .str ""), ("data", .obj [("products", .arr [])])])])
      = .ok ⟨"assistant", .str "No products found"⟩ := by
  refine ⟨rfl, ?_⟩
  exact claim7_products_fallback _ (.bool true)
    (.obj [("type", .str "product_results"), ("content", .str ""),
      ("data", .obj [("products", .arr [])])])
    rfl rfl rfl rfl (Or.inr (Or.inr rfl))

/-- When `data` or `data.steps` is absent, or `data.steps` is the empty
array, `formatInstallationGuide` takes its early-return branch:
`content || "No installation steps available"`. -/
theorem formatInstallationGuide_fallback (r : JSVal) (hnr : notNullish r = true)
    (hcase : optMember r "data" = .undef
      ∨ optMember (optMember r "data") "steps" = .undef
      ∨ optMember (optMember r "data") "steps" = .arr []) :
    formatInstallationGuide r
      = .ok (if truthy (optMember r "content") then optMember r "content"
             else .str "No installation steps available") := by
  unfold formatInstallationGuide
  rw [getField_eq_ok r "content" hnr, except_bind_ok,
    getField_eq_ok r "data" hnr, except_bind_ok]
  have hguard : (!truthy (optMember r "data")
      || !truthy (optMember (optMember r "data") "steps")
      || strictEqZero (optMember (optMember (optMember r "data") "steps") "length"))
      = true := by
    rcases hcase with h | h | h <;> rw [h] <;> simp [truthy, optMember, strictEqZero]
  rw [hguard]
  rfl

/-- The `switch` sends the tag `installation_guide` to
`formatInstallationGuide`. -/
theorem switchContent_guide (r : JSVal) :
    switchContent (.str "installation_guide") r = formatInstallationGuide r := by
  unfold switchContent
  simp [strictEqStr]

/-- C8: for every `installation_guide` payload in which `data.steps` is
missing or empty, the normalizer returns `content` when it is truthy and
the fallback `"No installation steps available"` otherwise. -/
theorem claim8_steps_fallback (p s r : JSVal)
    (hs : getField p "success" = .ok s) (hts : truthy s = true)
    (hr : getField p "response" = .ok r)
    (hty : optMember r "type" = .str "installation_guide")
    (hcase : optMember r "data" = .undef
      ∨ optMember (optMember r "data") "steps" = .undef
      ∨ optMember (optMember r "data") "steps" = .arr []) :
    formatBackendResponse p
      = .ok ⟨"assistant",
          if truthy (optMember r "content") then optMember r "content"
          else .str "No installation steps available"⟩ := by
  have hnr := notNullish_of_optMember_str hty
  rw [fbr_success_eq p s r hs hts hr hnr, hty, switchContent_guide r,
    formatInstallationGuide_fallback r hnr hcase, except_bind_ok]
  rfl

/-- Witness for C8: an `installation_guide` payload with empty
`data.steps` and non-empty `content` falls back to that `content`. -/
theorem claim8_witness :
    optMember (JSVal.obj [("type", .str "installation_guide"),
        ("content", .str "Here"), ("data", .obj [("steps", .arr [])])]) "type"
      = .str "installation_guide"
    ∧ formatBackendResponse (JSVal.obj [("success", .bool true),
        ("response", .obj [("type", .str "installation_guide"),
          ("content", .str "Here"), ("data", .obj [("steps", .arr [])])])])
      = .ok ⟨"assistant", .str "Here"⟩ := by
  refine ⟨rfl, ?_⟩
  exact claim8_steps_fallback _ (.bool true)
    (.obj [("type", .str "installation_guide"), ("content", .str "Here"),
      ("data", .obj [("steps", .arr [])])])
    rfl rfl rfl rfl (Or.inr (Or.inr rfl))

/-- Counterexample for C4 as stated: in the payload
`{success: false, error: {message: ""}}` the `error.message` field is
present (with value `""`), yet the normalizer returns the generic
fallback `"An error occurred"`, not `error.message`. -/
theorem claim4_counterexample :
    optMember (optMember (JSVal.obj [("success", .bool false),
        ("error", .obj [("message", .str "")])]) "error") "message" = .str ""
    ∧ formatBackendResponse (JSVal.obj [("success", .bool false),
        ("error", .obj [("message", .str "")])])
      = .ok ⟨"assistant", .str "An error occurred"⟩
    ∧ JSVal.str "An error occurred" ≠ JSVal.str "" :=
  ⟨rfl, rfl, by simp⟩

/-- C4 (amended): for every payload whose `success` field is falsy, the
normalizer returns `error.message` when that field is present and truthy,
and the generic fallback `"An error occurred"` otherwise; the resulting
content is never the empty string; `{success:false,
error:{message:"bad query"}}` yields `"bad query"`. -/
theorem claim4_amended :
    (∀ p s, getField p "success" = .ok s → truthy s = false →
      (truthy (optMember (optMember p "error") "message") = true →
        formatBackendResponse p
          = .ok ⟨"assistant", optMember (optMember p "error") "message"⟩)
      ∧ (truthy (optMember (optMember p "error") "message") = false →
        formatBackendResponse p = .ok ⟨"assistant", .str "An error occurred"⟩)
      ∧ (∀ m, formatBackendResponse p = .ok m → m.content ≠ .str ""))
    ∧ formatBackendResponse (JSVal.obj [("success", .bool false),
        ("error", .obj [("message", .str "bad query")])])
      = .ok ⟨"assistant", .str "bad query"⟩ := by
  refine ⟨?_, rfl⟩
  intro p s hs hts
  have hp : notNullish p = true := notNullish_of_getField_ok hs
  have hfb : formatBackendResponse p
      = .ok ⟨"assistant",
          if truthy (optMember (optMember p "error") "message")
          then optMember (optMember p "error") "message"
          else .str "An error occurred"⟩ := by
    unfold formatBackendResponse
    rw [hs, except_bind_ok, hts]
    simp only [Bool.not_false, if_true]
    rw [getField_eq_ok p "error" hp, except_bind_ok]
    rfl
  refine ⟨?_, ?_, ?_⟩
  · intro ht
    rw [hfb, ht]
    rfl
  · intro hf
    rw [hfb, hf]
    rfl
  · intro m hm
    rw [hfb] at hm
    injection hm with hm2
    rw [← hm2]
    simp only []
    split
    · rename_i htr
      cases hmem : optMember (optMember p "error") "message" <;>
        rw [hmem] at htr <;> simp [truthy] at htr ⊢
      exact htr
    · simp

/-- C10: every message produced by `formatBackendResponse`, and the
message returned by `getAIMessage` on every outcome (success or any
failure), has role exactly `"assistant"`. -/
theorem claim10_role_invariant :
    (∀ p m, formatBackendResponse p = .ok m → m.role = "assistant")
    ∧ (∀ (net : JSVal → FetchOutcome) (q : String) (sess : JSVal),
        (getAIMessage net q sess).1.role = "assistant") := by
  refine ⟨fbr_role, ?_⟩
  intro net q sess
  unfold getAIMessage
  cases hnet : net (buildRequestBody q sess) with
  | netError m => rfl
  | http ok status body =>
    cases ok with
    | false => rfl
    | true =>
      cases body with
      | error m => rfl
      | ok data =>
        dsimp only
        cases hsid : getField data "sessionId" with
        | error m => rfl
        | ok sid =>
          cases hfbr : formatBackendResponse data with
          | error m => rfl
          | ok msg => exact fbr_role data msg hfbr

/-- Witness for C10 on a concrete payload and a concrete failing network. -/
theorem claim10_witness :
    formatBackendResponse (JSVal.obj [("success", .bool false)])
      = .ok ⟨"assistant", .str "An error occurred"⟩
    ∧ (⟨"assistant", JSVal.str "An error occurred"⟩ : ChatMessage).role = "assistant"
    ∧ (getAIMessage (fun _ => .netError "Failed to fetch") "hi" .null).1.role
      = "assistant" := by
  refine ⟨rfl, ?_, ?_⟩
  · exact claim10_role_invariant.1 (JSVal.obj [("success", .bool false)])
      ⟨"assistant", .str "An error occurred"⟩ rfl
  · exact claim10_role_invariant.2 (fun _ => .netError "Failed to fetch") "hi" .null

/-- C5: on each of the three failure modes of a send turn — rejected
fetch, non-OK HTTP status, malformed JSON body — `getAIMessage` returns
(it does not raise: its result type is a plain pair) an assistant-role
message whose content is the user-facing error string naming the failure
reason, and leaves the session id unchanged. -/
theorem claim5_failure_modes :
    ∀ (net : JSVal → FetchOutcome) (q : String) (sess : JSVal),
      (∀ m, net (buildRequestBody q sess) = .netError m →
        getAIMessage net q sess
          = (⟨"assistant", .str ("Sorry, I encountered an error: " ++ m
              ++ ". Please make sure the backend is running on http://localhost:5000")⟩,
             sess))
      ∧ (∀ st body, net (buildRequestBody q sess) = .http false st body →
        getAIMessage net q sess
          = (⟨"assistant", .str ("Sorry, I encountered an error: Backend error: "
              ++ toString st
              ++ ". Please make sure the backend is running on http://localhost:5000")⟩,
             sess))
      ∧ (∀ st m, net (buildRequestBody q sess) = .http true st (.error m) →
        getAIMessage net q sess
          = (⟨"assistant", .str ("Sorry, I encountered an error: " ++ m
              ++ ". Please make sure the backend is running on http://localhost:5000")⟩,
             sess)) := by
  intro net q sess
  refine ⟨?_, ?_, ?_⟩
  · intro m h
    unfold getAIMessage
    rw [h]
    rfl
  · intro st body h
    unfold getAIMessage
    rw [h]
    rfl
  · intro st m h
    unfold getAIMessage
    rw [h]
    rfl

/-- Witness for C5 at a concrete network failure. -/
theorem claim5_witness :
    (fun _ => FetchOutcome.netError "Failed to fetch") (buildRequestBody "hi" .null)
      = FetchOutcome.netError "Failed to fetch"
    ∧ getAIMessage (fun _ => FetchOutcome.netError "Failed to fetch") "hi" .null
      = (⟨"assistant", .str ("Sorry, I encountered an error: Failed to fetch"
          ++ ". Please make sure the backend is running on http://localhost:5000")⟩,
         .null) :=
  ⟨rfl, (claim5_failure_modes (fun _ => .netError "Failed to fetch") "hi" .null).1
    "Failed to fetch" rfl⟩

/-- C9: after a successful call whose parsed body carries a truthy
`sessionId`, the stored session identifier equals that value (whatever
was stored before is overwritten), and the next request body carries it;
`resetSession` sets the stored identifier back to `null`. -/
theorem claim9_session_tracking :
    (∀ (net : JSVal → FetchOutcome) (q : String) (sess : JSVal)
        (st : Nat) (data sid : JSVal),
      net (buildRequestBody q sess) = .http true st (.ok data) →
      getField data "sessionId" = .ok sid → truthy sid = true →
      (getAIMessage net q sess).2 = sid
      ∧ (∀ q2 : String,
          optMember (buildRequestBody q2 (getAIMessage net q sess).2) "sessionId"
            = sid))
    ∧ resetSession = JSVal.null := by
  refine ⟨?_, rfl⟩
  intro net q sess st data sid hnet hsid ht
  have h2 : (getAIMessage net q sess).2 = sid := by
    unfold getAIMessage
    rw [hnet]
    dsimp only
    rw [hsid]
    simp only [Bool.not_true, Bool.false_eq_true, if_false]
    rw [if_pos ht]
    cases hfbr : formatBackendResponse data with
    | error m => rfl
    | ok msg => rfl
  refine ⟨h2, ?_⟩
  intro q2
  rw [h2]
  rfl

/-- Witness for C9 at a concrete successful exchange carrying
`sessionId: "s-42"` that overwrites a previously stored `"old"`. -/
theorem claim9_witness :
    (fun _ => FetchOutcome.http true 200
        (.ok (.obj [("sessionId", .str "s-42"), ("success", .bool false)])))
      (buildRequestBody "hi" (.str "old"))
      = FetchOutcome.http true 200
          (.ok (.obj [("sessionId", .str "s-42"), ("success", .bool false)]))
    ∧ (getAIMessage
        (fun _ => FetchOutcome.http true 200
          (.ok (.obj [("sessionId", .str "s-42"), ("success", .bool false)])))
        "hi" (.str "old")).2 = .str "s-42" := by
  refine ⟨rfl, ?_⟩
  exact ((claim9_session_tracking.1
    (fun _ => FetchOutcome.http true 200
      (.ok (.obj [("sessionId", .str "s-42"), ("success", .bool false)])))
    "hi" (.str "old") 200
    (.obj [("sessionId", .str "s-42"), ("success", .bool false)])
    (.str "s-42") rfl rfl rfl).1)

theorem truthy_of_optMember_arr {v : JSVal} {k : String} {l : List JSVal}
    (h : optMember v k = .arr l) : truthy v = true := by
  cases v with
  | undef => simp [optMember] at h
  | null => simp [optMember] at h
  | bool b => simp [optMember] at h
  | num n => simp [optMember] at h
  | str s =>
    simp only [optMember] at h
    split at h <;> simp_all
  | arr xs => rfl
  | obj fs => rfl

theorem exists_arr_of_isArr {v : JSVal} (h : isArr v = true) :
    ∃ xs, v = JSVal.arr xs := by
  cases v <;> simp [isArr] at h ⊢

/-- A guarded section over a well-formed optional list field never
throws: it renders the section exactly when the guard passes. -/
theorem guardedSection_eq (v : JSVal) (hv : arrWhenLooped v = true)
    (body : List JSVal → Except String String) (g : JSVal → String)
    (hb : ∀ xs, v = .arr xs → body xs = .ok (g (.arr xs))) :
    guardedSection v body
      = .ok (if truthy v && gtZero (optMember v "length") then g v else "") := by
  unfold guardedSection
  cases hg : (truthy v && gtZero (optMember v "length")) with
  | false => rfl
  | true =>
    have htv : truthy v = true := by
      rw [Bool.and_eq_true] at hg
      exact hg.1
    have hcw2 : isArr v = true := by
      rw [arrWhenLooped, htv, Bool.not_true, Bool.false_or] at hv
      exact hv
    obtain ⟨xs, hxs⟩ := exists_arr_of_isArr hcw2
    subst hxs
    simp [jsElems, hb xs rfl, except_bind_ok]

/-- A well-formed product is formatted as exactly its specification
block `productEntry`. -/
theorem formatOneProduct_eq (p : JSVal) (i : Nat) (h : wfProduct p = true) :
    formatOneProduct p i = .ok (productEntry i p) := by
  rw [wfProduct, Bool.and_eq_true] at h
  obtain ⟨hp, hcw⟩ := h
  unfold formatOneProduct
  rw [getField_eq_ok p "name" hp, except_bind_ok, getField_eq_ok p "id" hp,
    except_bind_ok, getField_eq_ok p "price" hp, except_bind_ok,
    getField_eq_ok p "description" hp, except_bind_ok,
    getField_eq_ok p "compatibility" hp, except_bind_ok,
    guardedSection_eq _ hcw
      (fun xs => pure ("   Compatible with: " ++ jsJoin xs ", " ++ "\n"))
      (fun v => "   Compatible with: " ++ joinedList v ++ "\n")
      (fun xs hxs => rfl),
    except_bind_ok,
    getField_eq_ok p "inStock" hp, except_bind_ok]
  rfl

/-- The product loop, over a list of well-formed products, produces
exactly the concatenated specification blocks, in input order. -/
theorem formatProductsFrom_eq (l : List JSVal) (i : Nat)
    (h : l.all wfProduct = true) :
    formatProductsFrom l i = .ok (productEntries l i) := by
  induction l generalizing i with
  | nil => rfl
  | cons p ps ih =>
    rw [List.all_cons, Bool.and_eq_true] at h
    unfold formatProductsFrom
    rw [formatOneProduct_eq p i h.1, except_bind_ok, ih (i + 1) h.2,
      except_bind_ok]
    rfl

/-- On a `response` whose `data.products` is a non-empty array of
well-formed products, `formatProductResults` produces `content`, a blank
line and the concatenated product blocks numbered from 1. -/
theorem formatProductResults_main (r : JSVal) (l : List JSVal)
    (hnr : notNullish r = true)
    (hprod : optMember (optMember r "data") "products" = .arr l)
    (hne : l ≠ []) (hwf : l.all wfProduct = true) :
    formatProductResults r
      = .ok (.str (toJSString (optMember r "content") ++ "\n\n"
          ++ productEntries l 0)) := by
  unfold formatProductResults
  rw [getField_eq_ok r "content" hnr, except_bind_ok,
    getField_eq_ok r "data" hnr, except_bind_ok]
  have hd : truthy (optMember r "data") = true := truthy_of_optMember_arr hprod
  have hguard : (!truthy (optMember r "data")
      || !truthy (optMember (optMember r "data") "products")
      || strictEqZero (optMember (optMember (optMember r "data") "products") "length"))
      = false := by
    rw [hprod, hd]
    simp [truthy, optMember, strictEqZero, List.length_eq_zero, hne]
  rw [hguard]
  simp only [Bool.false_eq_true, if_false]
  rw [hprod]
  simp only [jsElems, except_bind_ok]
  rw [formatProductsFrom_eq l 0 hwf, except_bind_ok]
  rfl

/-- C3: for every well-formed `product_results` payload with a non-empty
`data.products` array, the normalizer's output is `content` followed by
exactly one numbered block per product, in input order, each block
showing the product's name, id, price and description (`productEntries`);
and the widget scenario's output contains `"1. Widget"`,
`"Price: $9.99"` and `"In Stock: Yes"`. -/
theorem claim3_product_listing :
    (∀ p s r l, getField p "success" = .ok s → truthy s = true →
        getField p "response" = .ok r →
        optMember r "type" = .str "product_results" →
        optMember (optMember r "data") "products" = .arr l →
        l ≠ [] → l.all wfProduct = true →
        formatBackendResponse p
          = .ok ⟨"assistant", .str (toJSString (optMember r "content")
              ++ "\n\n" ++ productEntries l 0)⟩)
    ∧ (∃ a1 b1 a2 b2 a3 b3 : String,
        formatBackendResponse (JSVal.obj [("success", .bool true),
            ("response", .obj [("type", .str "product_results"),
              ("content", .str "Found 1"),
              ("data", .obj [("products", .arr [JSVal.obj [("name", .str "Widget"),
                ("id", .str "W1"), ("price", .num (.dec "9.99")),
                ("description", .str "A widget"), ("inStock", .bool true)]])])])])
          = .ok ⟨"assistant", .str (a1 ++ "1. Widget" ++ b1)⟩
        ∧ a1 ++ "1. Widget" ++ b1 = a2 ++ "Price: $9.99" ++ b2
        ∧ a1 ++ "1. Widget" ++ b1 = a3 ++ "In Stock: Yes" ++ b3) := by
  constructor
  · intro p s r l hs hts hr hty hprod hne hwf
    have hnr := notNullish_of_optMember_str hty
    rw [fbr_success_eq p s r hs hts hr hnr, hty, switchContent_products r,
      formatProductResults_main r l hnr hprod hne hwf, except_bind_ok]
    rfl
  · refine ⟨"Found 1\n\n**", "**\n   ID: W1\n   Price: $9.99\n   Description: A widget\n   In Stock: Yes\n\n",
      "Found 1\n\n**1. Widget**\n   ID: W1\n   ", "\n   Description: A widget\n   In Stock: Yes\n\n",
      "Found 1\n\n**1. Widget**\n   ID: W1\n   Price: $9.99\n   Description: A widget\n   ", "\n\n",
      rfl, rfl, rfl⟩

/-- Witness for C3's universally quantified part at the widget payload. -/
theorem claim3_witness :
    ([JSVal.obj [("name", .str "Widget"), ("id", .str "W1"),
        ("price", .num (.dec "9.99")), ("description", .str "A widget"),
        ("inStock", .bool true)]] ≠ ([] : List JSVal))
    ∧ ([JSVal.obj [("name", .str "Widget"), ("id", .str "W1"),
        ("price", .num (.dec "9.99")), ("description", .str "A widget"),
        ("inStock", .bool true)]].all wfProduct = true)
    ∧ formatBackendResponse (JSVal.obj [("success", .bool true),
        ("response", .obj [("type", .str "product_results"),
          ("content", .str "Found 1"),
          ("data", .obj [("products", .arr [JSVal.obj [("name", .str "Widget"),
            ("id", .str "W1"), ("price", .num (.dec "9.99")),
            ("description", .str "A widget"), ("inStock", .bool true)]])])])])
      = .ok ⟨"assistant",
          .str "Found 1\n\n**1. Widget**\n   ID: W1\n   Price: $9.99\n   Description: A widget\n   In Stock: Yes\n\n"⟩ := by
  refine ⟨by simp, rfl, ?_⟩
  exact claim3_product_listing.1 _ (.bool true)
    (.obj [("type", .str "product_results"), ("content", .str "Found 1"),
      ("data", .obj [("products", .arr [JSVal.obj [("name", .str "Widget"),
        ("id", .str "W1"), ("price", .num (.dec "9.99")),
        ("description", .str "A widget"), ("inStock", .bool true)]])])])
    [JSVal.obj [("name", .str "Widget"), ("id", .str "W1"),
      ("price", .num (.dec "9.99")), ("description", .str "A widget"),
      ("inStock", .bool true)]]
    rfl rfl rfl rfl rfl (by simp) rfl

/-- Witness for C4's amended universal part: `{success: false}` with no
`error` at all yields the generic fallback. -/
theorem claim4_witness :
    getField (JSVal.obj [("success", .bool false)]) "success" = .ok (.bool false)
    ∧ truthy (JSVal.bool false) = false
    ∧ formatBackendResponse (JSVal.obj [("success", .bool false)])
      = .ok ⟨"assistant", .str "An error occurred"⟩ := by
  refine ⟨rfl, rfl, ?_⟩
  exact (claim4_amended.1 (JSVal.obj [("success", .bool false)])
    (.bool false) rfl rfl).2.1 rfl

/-- A well-formed step is formatted as exactly its specification block
`stepEntry`. -/
theorem formatOneStep_eq (st : JSVal) (h : wfStep st = true) :
    formatOneStep st = .ok (stepEntry st) := by
  rw [wfStep, Bool.and_eq_true, Bool.and_eq_true, Bool.and_eq_true] at h
  obtain ⟨⟨⟨hp, htools⟩, htips⟩, hwarn⟩ := h
  unfold formatOneStep
  rw [getField_eq_ok st "step" hp, except_bind_ok,
    getField_eq_ok st "instruction" hp, except_bind_ok,
    getField_eq_ok st "tools" hp, except_bind_ok,
    guardedSection_eq _ htools
      (fun xs => pure ("   🔧 Tools needed: " ++ jsJoin xs ", " ++ "\n"))
      (fun v => "   🔧 Tools needed: " ++ joinedList v ++ "\n")
      (fun xs hxs => rfl),
    except_bind_ok,
    getField_eq_ok st "tips" hp, except_bind_ok,
    guardedSection_eq _ htips
      (fun xs => pure ("   💡 Tips:\n"
        ++ String.join (xs.map (fun tip => "      - " ++ toJSString tip ++ "\n"))))
      (fun v => "   💡 Tips:\n" ++ bulletLines v)
      (fun xs hxs => rfl),
    except_bind_ok,
    getField_eq_ok st "warnings" hp, except_bind_ok,
    guardedSection_eq _ hwarn
      (fun xs => pure ("   ⚠️ Warnings:\n"
        ++ String.join (xs.map (fun w => "      - " ++ toJSString w ++ "\n"))))
      (fun v => "   ⚠️ Warnings:\n" ++ bulletLines v)
      (fun xs hxs => rfl),
    except_bind_ok]
  rfl

/-- The step loop, over well-formed steps, produces exactly the
concatenated specification blocks, in input order. -/
theorem formatStepsList_eq (l : List JSVal) (h : l.all wfStep = true) :
    formatStepsList l = .ok (stepEntries l) := by
  induction l with
  | nil => rfl
  | cons st sts ih =>
    rw [List.all_cons, Bool.and_eq_true] at h
    unfold formatStepsList
    rw [formatOneStep_eq st h.1, except_bind_ok, ih h.2, except_bind_ok]
    rfl

/-- On a `response` whose `data.steps` is a non-empty array of
well-formed steps, `formatInstallationGuide` produces `content`, the
estimated-time and difficulty lines, and the concatenated step blocks. -/
theorem formatInstallationGuide_main (r : JSVal) (l : List JSVal)
    (hnr : notNullish r = true)
    (hsteps : optMember (optMember r "data") "steps" = .arr l)
    (hne : l ≠ []) (hwf : l.all wfStep = true) :
    formatInstallationGuide r
      = .ok (.str (toJSString (optMember r "content") ++ "\n\n"
          ++ "⏱️ Estimated Time: "
          ++ toJSString (optMember (optMember r "data") "estimatedTime")
          ++ " minutes\n"
          ++ "📊 Difficulty: "
          ++ toJSString (optMember (optMember r "data") "difficulty")
          ++ "\n\n" ++ stepEntries l)) := by
  unfold formatInstallationGuide
  rw [getField_eq_ok r "content" hnr, except_bind_ok,
    getField_eq_ok r "data" hnr, except_bind_ok]
  have hd : truthy (optMember r "data") = true := truthy_of_optMember_arr hsteps
  have hguard : (!truthy (optMember r "data")
      || !truthy (optMember (optMember r "data") "steps")
      || strictEqZero (optMember (optMember (optMember r "data") "steps") "length"))
      = false := by
    rw [hsteps, hd]
    simp [truthy, optMember, strictEqZero, List.length_eq_zero, hne]
  rw [hguard]
  simp only [Bool.false_eq_true, if_false]
  rw [hsteps]
  simp only [jsElems, except_bind_ok]
  rw [formatStepsList_eq l hwf, except_bind_ok]
  rfl

/-- A non-nullish cause is formatted as exactly its specification block
`causeEntry`. -/
theorem formatOneCause_eq (c : JSVal) (i : Nat) (hp : notNullish c = true) :
    formatOneCause c i = .ok (causeEntry i c) := by
  unfold formatOneCause
  rw [getField_eq_ok c "cause" hp, except_bind_ok,
    getField_eq_ok c "probability" hp, except_bind_ok,
    getField_eq_ok c "description" hp, except_bind_ok,
    getField_eq_ok c "fix" hp, except_bind_ok]
  rfl

/-- The causes loop, over non-nullish causes, produces exactly the
concatenated specification blocks, numbered from `i`. -/
theorem formatCausesFrom_eq (l : List JSVal) (i : Nat)
    (h : l.all notNullish = true) :
    formatCausesFrom l i = .ok (causeEntries l i) := by
  induction l generalizing i with
  | nil => rfl
  | cons c cs ih =>
    rw [List.all_cons, Bool.and_eq_true] at h
    unfold formatCausesFrom
    rw [formatOneCause_eq c i h.1, except_bind_ok, ih (i + 1) h.2,
      except_bind_ok]
    rfl

/-- A well-formed solution is formatted as exactly its specification
block `solutionEntry`. -/
theorem formatOneSolution_eq (s : JSVal) (i : Nat) (h : wfSolution s = true) :
    formatOneSolution s i = .ok (solutionEntry i s) := by
  rw [wfSolution, Bool.and_eq_true, Bool.and_eq_true] at h
  obtain ⟨⟨hp, hsteps⟩, hrec⟩ := h
  unfold formatOneSolution
  rw [getField_eq_ok s "title" hp, except_bind_ok]
  rw [getField_eq_ok s "steps" hp, except_bind_ok]
  rw [guardedSection_eq _ hsteps
      (fun xs => pure (String.join (xs.enum.map
        (fun (si : Nat × JSVal) => "   " ++ toString (si.1 + 1) ++ ". " ++ toJSString si.2 ++ "\n"))))
      numberedLines
      (fun xs hxs => rfl)]
  rw [except_bind_ok]
  rw [getField_eq_ok s "estimatedTime" hp, except_bind_ok]
  rw [getField_eq_ok s "recommendedParts" hp, except_bind_ok]
  rw [guardedSection_eq _ hrec
      (fun xs => pure ("   🛠️ Recommended Parts: " ++ jsJoin xs ", " ++ "\n"))
      (fun v => "   🛠️ Recommended Parts: " ++ joinedList v ++ "\n")
      (fun xs hxs => rfl)]
  rw [except_bind_ok]
  rfl

/-- The solutions loop, over well-formed solutions, produces exactly the
concatenated specification blocks, numbered from `i`. -/
theorem formatSolutionsFrom_eq (l : List JSVal) (i : Nat)
    (h : l.all wfSolution = true) :
    formatSolutionsFrom l i = .ok (solutionEntries l i) := by
  induction l generalizing i with
  | nil => rfl
  | cons s ss ih =>
    rw [List.all_cons, Bool.and_eq_true] at h
    unfold formatSolutionsFrom
    rw [formatOneSolution_eq s i h.1, except_bind_ok, ih (i + 1) h.2,
      except_bind_ok]
    rfl

theorem exists_of_allElems {v : JSVal} {f : JSVal → Bool}
    (h : allElems v f = true) : ∃ xs, v = JSVal.arr xs ∧ xs.all f = true := by
  cases v <;> simp [allElems] at h ⊢
  exact h

/-- A falsy `data` makes every `data.k` list field trivially
well-formed. -/
theorem wfListField_of_falsy {d : JSVal} (k : String) (f : JSVal → Bool)
    (hd : truthy d = false) : wfListField (optMember d k) f = true := by
  cases d with
  | undef => rfl
  | null => rfl
  | num n => rfl
  | bool b =>
    cases b with
    | true => simp [truthy] at hd
    | false => rfl
  | str s =>
    have hs : s = "" := by simpa [truthy] using hd
    subst hs
    by_cases hk : k = "length" <;>
      simp [optMember, hk, wfListField, truthy, numTruthy, allElems]
  | arr xs => simp [truthy] at hd
  | obj fs => simp [truthy] at hd

/-- A `troubleSection` over a well-formed list field never throws: it
renders the section exactly when the guard passes. -/
theorem troubleSection_eq (data : JSVal) (k : String) (elemOk : JSVal → Bool)
    (hv : wfListField (optMember data k) elemOk = true)
    (body : List JSVal → Except String String) (g : JSVal → String)
    (hb : ∀ xs, optMember data k = .arr xs → xs.all elemOk = true →
      body xs = .ok (g (.arr xs))) :
    troubleSection data k body
      = .ok (if truthy data && truthy (optMember data k)
            && gtZero (optMember (optMember data k) "length")
          then g (optMember data k) else "") := by
  unfold troubleSection
  cases hg : (truthy data && truthy (optMember data k)
      && gtZero (optMember (optMember data k) "length")) with
  | false => rfl
  | true =>
    rw [Bool.and_eq_true, Bool.and_eq_true] at hg
    obtain ⟨⟨hd, hk⟩, hlen⟩ := hg
    rw [wfListField, hk] at hv
    simp only [Bool.not_true, Bool.false_or] at hv
    obtain ⟨xs, hxs, hall⟩ := exists_of_allElems hv
    rw [hxs]
    rw [if_pos rfl]
    simp [jsElems, hb xs hxs hall, except_bind_ok]

/-- On well-formed troubleshooting `data`, `formatTroubleshooting`
produces `content`, a blank line, then the optional `Possible Causes`
and `Suggested Solutions` sections. -/
theorem formatTroubleshooting_eq (r : JSVal) (hnr : notNullish r = true)
    (hwf : wfTroubleData (optMember r "data") = true) :
    formatTroubleshooting r
      = .ok (toJSString (optMember r "content") ++ "\n\n"
          ++ (if truthy (optMember r "data")
                && truthy (optMember (optMember r "data") "possibleCauses")
                && gtZero (optMember (optMember (optMember r "data") "possibleCauses") "length")
              then causesSection (optMember (optMember r "data") "possibleCauses")
              else "")
          ++ (if truthy (optMember r "data")
                && truthy (optMember (optMember r "data") "suggestedSolutions")
                && gtZero (optMember (optMember (optMember r "data") "suggestedSolutions") "length")
              then solutionsSection (optMember (optMember r "data") "suggestedSolutions")
              else "")) := by
  have hvC : wfListField (optMember (optMember r "data") "possibleCauses")
      notNullish = true := by
    cases htd : truthy (optMember r "data") with
    | false => exact wfListField_of_falsy _ _ htd
    | true =>
      rw [wfTroubleData, htd, Bool.not_true, Bool.false_or,
        Bool.and_eq_true] at hwf
      exact hwf.1
  have hvS : wfListField (optMember (optMember r "data") "suggestedSolutions")
      wfSolution = true := by
    cases htd : truthy (optMember r "data") with
    | false => exact wfListField_of_falsy _ _ htd
    | true =>
      rw [wfTroubleData, htd, Bool.not_true, Bool.false_or,
        Bool.and_eq_true] at hwf
      exact hwf.2
  unfold formatTroubleshooting
  rw [getField_eq_ok r "content" hnr, except_bind_ok,
    getField_eq_ok r "data" hnr, except_bind_ok]
  rw [troubleSection_eq (optMember r "data") "possibleCauses" notNullish hvC
      (fun xs => do
        let body ← formatCausesFrom xs 0
        pure ("**Possible Causes:**\n\n" ++ body))
      causesSection
      (fun xs hxs hall => by
        show (do
            let body ← formatCausesFrom xs 0
            pure ("**Possible Causes:**\n\n" ++ body))
          = Except.ok (causesSection (JSVal.arr xs))
        rw [formatCausesFrom_eq xs 0 hall, except_bind_ok]
        rfl)]
  rw [except_bind_ok]
  rw [troubleSection_eq (optMember r "data") "suggestedSolutions" wfSolution hvS
      (fun xs => do
        let body ← formatSolutionsFrom xs 0
        pure ("**Suggested Solutions:**\n\n" ++ body))
      solutionsSection
      (fun xs hxs hall => by
        show (do
            let body ← formatSolutionsFrom xs 0
            pure ("**Suggested Solutions:**\n\n" ++ body))
          = Except.ok (solutionsSection (JSVal.arr xs))
        rw [formatSolutionsFrom_eq xs 0 hall, except_bind_ok]
        rfl)]
  rw [except_bind_ok]
  rfl

/-- Counterexample for C2 as stated: in an `installation_guide` payload
with steps but no `estimatedTime`, the absent optional field is
interpolated as the text `"undefined"` in the output (`"⏱️ Estimated
Time: undefined minutes"`), so absence of `estimatedTime` does produce
`"undefined"` text. -/
theorem claim2_counterexample :
    optMember (optMember (optMember (JSVal.obj [("success", .bool true),
        ("response", .obj [("type", .str "installation_guide"),
          ("content", .str "Guide"),
          ("data", .obj [("steps", .arr [JSVal.obj [("step", .num (.int 1)),
            ("instruction", .str "Do")]])])])]) "response") "data")
        "estimatedTime"
      = .undef
    ∧ formatBackendResponse (JSVal.obj [("success", .bool true),
        ("response", .obj [("type", .str "installation_guide"),
          ("content", .str "Guide"),
          ("data", .obj [("steps", .arr [JSVal.obj [("step", .num (.int 1)),
            ("instruction", .str "Do")]])])])])
      = .ok ⟨"assistant", .str ("Guide\n\n⏱️ Estimated Time: " ++ "undefined"
          ++ " minutes\n📊 Difficulty: undefined\n\n**Step 1: Do**\n\n")⟩ :=
  ⟨rfl, rfl⟩

set_option maxRecDepth 10000

/-- C2 (amended): per optional list field — a product's
`compatibility`, a step's `tools`, `tips` or `warnings`, a solution's
`steps` or `recommendedParts` — absence of that one field means exactly
its section is not rendered and formatting does not throw, whatever the
other optional fields hold (the output equals the entry formula with
that one section dropped); on concrete payloads with these fields
absent (and the always-rendered `estimatedTime`/`difficulty` present
where applicable) the normalized output contains neither the text
`"undefined"` nor any of the optional section labels.  (The original
claim also covered the guide's `estimatedTime`/`difficulty`, which the
code always interpolates — see the counterexample.) -/
theorem claim2_amended :
    (∀ p i, notNullish p = true → optMember p "compatibility" = .undef →
      formatOneProduct p i
        = .ok ("**" ++ toString (i + 1) ++ ". " ++ toJSString (optMember p "name")
            ++ "**\n" ++ "   ID: " ++ toJSString (optMember p "id") ++ "\n"
            ++ "   Price: $" ++ toJSString (optMember p "price") ++ "\n"
            ++ "   Description: " ++ toJSString (optMember p "description") ++ "\n"
            ++ "   In Stock: "
            ++ (if truthy (optMember p "inStock") then "Yes" else "No") ++ "\n\n"))
    ∧ (∀ st, wfStep st = true → optMember st "tools" = .undef →
      formatOneStep st
        = .ok ("**Step " ++ toJSString (optMember st "step") ++ ": "
            ++ toJSString (optMember st "instruction") ++ "**\n"
            ++ (if truthy (optMember st "tips")
                  && gtZero (optMember (optMember st "tips") "length")
                then "   💡 Tips:\n" ++ bulletLines (optMember st "tips")
                else "")
            ++ (if truthy (optMember st "warnings")
                  && gtZero (optMember (optMember st "warnings") "length")
                then "   ⚠️ Warnings:\n" ++ bulletLines (optMember st "warnings")
                else "")
            ++ "\n"))
    ∧ (∀ st, wfStep st = true → optMember st "tips" = .undef →
      formatOneStep st
        = .ok ("**Step " ++ toJSString (optMember st "step") ++ ": "
            ++ toJSString (optMember st "instruction") ++ "**\n"
            ++ (if truthy (optMember st "tools")
                  && gtZero (optMember (optMember st "tools") "length")
                then "   🔧 Tools needed: " ++ joinedList (optMember st "tools") ++ "\n"
                else "")
            ++ (if truthy (optMember st "warnings")
                  && gtZero (optMember (optMember st "warnings") "length")
                then "   ⚠️ Warnings:\n" ++ bulletLines (optMember st "warnings")
                else "")
            ++ "\n"))
    ∧ (∀ st, wfStep st = true → optMember st "warnings" = .undef →
      formatOneStep st
        = .ok ("**Step " ++ toJSString (optMember st "step") ++ ": "
            ++ toJSString (optMember st "instruction") ++ "**\n"
            ++ (if truthy (optMember st "tools")
                  && gtZero (optMember (optMember st "tools") "length")
                then "   🔧 Tools needed: " ++ joinedList (optMember st "tools") ++ "\n"
                else "")
            ++ (if truthy (optMember st "tips")
                  && gtZero (optMember (optMember st "tips") "length")
                then "   💡 Tips:\n" ++ bulletLines (optMember st "tips")
                else "")
            ++ "\n"))
    ∧ (∀ s i, wfSolution s = true → optMember s "steps" = .undef →
      formatOneSolution s i
        = .ok ("**Solution " ++ toString (i + 1) ++ ": "
            ++ toJSString (optMember s "title") ++ "**\n"
            ++ "   ⏱️ Estimated Time: " ++ toJSString (optMember s "estimatedTime")
            ++ " minutes\n"
            ++ (if truthy (optMember s "recommendedParts")
                  && gtZero (optMember (optMember s "recommendedParts") "length")
                then "   🛠️ Recommended Parts: "
                  ++ joinedList (optMember s "recommendedParts") ++ "\n"
                else "")
            ++ "\n"))
    ∧ (∀ s i, wfSolution s = true → optMember s "recommendedParts" = .undef →
      formatOneSolution s i
        = .ok ("**Solution " ++ toString (i + 1) ++ ": "
            ++ toJSString (optMember s "title") ++ "**\n"
            ++ (if truthy (optMember s "steps")
                  && gtZero (optMember (optMember s "steps") "length")
                then numberedLines (optMember s "steps")
                else "")
            ++ "   ⏱️ Estimated Time: " ++ toJSString (optMember s "estimatedTime")
            ++ " minutes\n" ++ "\n"))
    ∧ (formatBackendResponse (JSVal.obj [("success", .bool true),
          ("response", .obj [("type", .str "product_results"),
            ("content", .str "Found"),
            ("data", .obj [("products", .arr [JSVal.obj [("name", .str "A"),
              ("id", .str "I"), ("price", .num (.int 5)),
              ("description", .str "D"), ("inStock", .bool false)]])])])])
        = .ok ⟨"assistant",
            .str "Found\n\n**1. A**\n   ID: I\n   Price: $5\n   Description: D\n   In Stock: No\n\n"⟩
      ∧ ¬ ("undefined".toList
          <:+: "Found\n\n**1. A**\n   ID: I\n   Price: $5\n   Description: D\n   In Stock: No\n\n".toList)
      ∧ ¬ ("Compatible with:".toList
          <:+: "Found\n\n**1. A**\n   ID: I\n   Price: $5\n   Description: D\n   In Stock: No\n\n".toList))
    ∧ (formatBackendResponse (JSVal.obj [("success", .bool true),
          ("response", .obj [("type", .str "installation_guide"),
            ("content", .str "G"),
            ("data", .obj [("estimatedTime", .num (.int 30)),
              ("difficulty", .str "Easy"),
              ("steps", .arr [JSVal.obj [("step", .num (.int 1)),
                ("instruction", .str "X")]])])])])
        = .ok ⟨"assistant",
            .str "G\n\n⏱️ Estimated Time: 30 minutes\n📊 Difficulty: Easy\n\n**Step 1: X**\n\n"⟩
      ∧ ¬ ("undefined".toList
          <:+: "G\n\n⏱️ Estimated Time: 30 minutes\n📊 Difficulty: Easy\n\n**Step 1: X**\n\n".toList)
      ∧ ¬ ("Tools needed:".toList
          <:+: "G\n\n⏱️ Estimated Time: 30 minutes\n📊 Difficulty: Easy\n\n**Step 1: X**\n\n".toList)
      ∧ ¬ ("Tips:".toList
          <:+: "G\n\n⏱️ Estimated Time: 30 minutes\n📊 Difficulty: Easy\n\n**Step 1: X**\n\n".toList)
      ∧ ¬ ("Warnings:".toList
          <:+: "G\n\n⏱️ Estimated Time: 30 minutes\n📊 Difficulty: Easy\n\n**Step 1: X**\n\n".toList))
    ∧ (formatBackendResponse (JSVal.obj [("success", .bool true),
          ("response", .obj [("type", .str "troubleshooting"),
            ("content", .str "T"),
            ("data", .obj [("suggestedSolutions", .arr [JSVal.obj [
              ("title", .str "S"), ("steps", .arr [.str "a"]),
              ("estimatedTime", .num (.int 5))]])])])])
        = .ok ⟨"assistant",
            .str "T\n\n**Suggested Solutions:**\n\n**Solution 1: S**\n   1. a\n   ⏱️ Estimated Time: 5 minutes\n\n"⟩
      ∧ ¬ ("undefined".toList
          <:+: "T\n\n**Suggested Solutions:**\n\n**Solution 1: S**\n   1. a\n   ⏱️ Estimated Time: 5 minutes\n\n".toList)
      ∧ ¬ ("Recommended Parts:".toList
          <:+: "T\n\n**Suggested Solutions:**\n\n**Solution 1: S**\n   1. a\n   ⏱️ Estimated Time: 5 minutes\n\n".toList)) := by
  refine ⟨?_, ?_, ?_, ?_, ?_, ?_,
    ⟨rfl, by decide, by decide⟩,
    ⟨rfl, by decide, by decide, by decide, by decide⟩,
    ⟨rfl, by decide, by decide⟩⟩
  · intro p i hp hc
    have hwf : wfProduct p = true := by
      rw [wfProduct, hc, hp]
      rfl
    rw [formatOneProduct_eq p i hwf]
    unfold productEntry
    rw [hc]
    simp [truthy]
  · intro st hwf hc
    rw [formatOneStep_eq st hwf]
    unfold stepEntry
    rw [hc]
    simp [truthy]
  · intro st hwf hc
    rw [formatOneStep_eq st hwf]
    unfold stepEntry
    rw [hc]
    simp [truthy]
  · intro st hwf hc
    rw [formatOneStep_eq st hwf]
    unfold stepEntry
    rw [hc]
    simp [truthy]
  · intro s i hwf hc
    rw [formatOneSolution_eq s i hwf]
    unfold solutionEntry
    rw [hc]
    simp [truthy]
  · intro s i hwf hc
    rw [formatOneSolution_eq s i hwf]
    unfold solutionEntry
    rw [hc]
    simp [truthy]

/-- Witness for C2's per-field universal parts: each optional field
absent on its own, with another optional field of the same entry
present, so the remaining sections still render. -/
theorem claim2_witness :
    optMember (JSVal.obj [("name", .str "A"), ("id", .str "I"),
        ("price", .num (.int 5)), ("description", .str "D"),
        ("inStock", .bool true)]) "compatibility" = .undef
    ∧ formatOneProduct (JSVal.obj [("name", .str "A"), ("id", .str "I"),
        ("price", .num (.int 5)), ("description", .str "D"),
        ("inStock", .bool true)]) 0
      = .ok "**1. A**\n   ID: I\n   Price: $5\n   Description: D\n   In Stock: Yes\n\n"
    ∧ wfStep (JSVal.obj [("step", .num (.int 2)), ("instruction", .str "Twist"),
        ("tips", .arr [.str "T1"])]) = true
    ∧ optMember (JSVal.obj [("step", .num (.int 2)), ("instruction", .str "Twist"),
        ("tips", .arr [.str "T1"])]) "tools" = .undef
    ∧ formatOneStep (JSVal.obj [("step", .num (.int 2)), ("instruction", .str "Twist"),
        ("tips", .arr [.str "T1"])])
      = .ok "**Step 2: Twist**\n   💡 Tips:\n      - T1\n\n"
    ∧ formatOneStep (JSVal.obj [("step", .num (.int 3)), ("instruction", .str "Pull"),
        ("tools", .arr [.str "wrench"])])
      = .ok "**Step 3: Pull**\n   🔧 Tools needed: wrench\n\n"
    ∧ formatOneStep (JSVal.obj [("step", .num (.int 4)), ("instruction", .str "Check")])
      = .ok "**Step 4: Check**\n\n"
    ∧ formatOneSolution (JSVal.obj [("title", .str "Fix"),
        ("estimatedTime", .num (.int 9)),
        ("recommendedParts", .arr [.str "P1"])]) 0
      = .ok "**Solution 1: Fix**\n   ⏱️ Estimated Time: 9 minutes\n   🛠️ Recommended Parts: P1\n\n"
    ∧ formatOneSolution (JSVal.obj [("title", .str "Go"),
        ("steps", .arr [.str "a"]), ("estimatedTime", .num (.int 7))]) 0
      = .ok "**Solution 1: Go**\n   1. a\n   ⏱️ Estimated Time: 7 minutes\n\n" := by
  refine ⟨rfl, ?_, rfl, rfl, ?_, ?_, ?_, ?_, ?_⟩
  · exact claim2_amended.1 _ 0 rfl rfl
  · exact claim2_amended.2.1 _ rfl rfl
  · exact claim2_amended.2.2.1 _ rfl rfl
  · exact claim2_amended.2.2.2.1 _ rfl rfl
  · exact claim2_amended.2.2.2.2.1 _ 0 rfl rfl
  · exact claim2_amended.2.2.2.2.2.1 _ 0 rfl rfl

/-- The failure branch of the normalizer: `error.message` when truthy,
else the generic fallback, wrapped as an assistant message. -/
theorem fbr_failure_eq (p s : JSVal) (hs : getField p "success" = .ok s)
    (hts : truthy s = false) :
    formatBackendResponse p
      = .ok ⟨"assistant",
          if truthy (optMember (optMember p "error") "message")
          then optMember (optMember p "error") "message"
          else .str "An error occurred"⟩ := by
  have hp : notNullish p = true := notNullish_of_getField_ok hs
  unfold formatBackendResponse
  rw [hs, except_bind_ok, hts]
  simp only [Bool.not_false, if_true]
  rw [getField_eq_ok p "error" hp, except_bind_ok]
  rfl

/-- The early-return branch of `formatProductResults`, for any payload
on which its guard holds. -/
theorem formatProductResults_early (r : JSVal) (hnr : notNullish r = true)
    (hguard : (!truthy (optMember r "data")
      || !truthy (optMember (optMember r "data") "products")
      || strictEqZero (optMember (optMember (optMember r "data") "products") "length"))
      = true) :
    formatProductResults r
      = .ok (if truthy (optMember r "content") then optMember r "content"
             else .str "No products found") := by
  unfold formatProductResults
  rw [getField_eq_ok r "content" hnr, except_bind_ok,
    getField_eq_ok r "data" hnr, except_bind_ok, hguard]
  rfl

/-- The early-return branch of `formatInstallationGuide`, for any
payload on which its guard holds. -/
theorem formatInstallationGuide_early (r : JSVal) (hnr : notNullish r = true)
    (hguard : (!truthy (optMember r "data")
      || !truthy (optMember (optMember r "data") "steps")
      || strictEqZero (optMember (optMember (optMember r "data") "steps") "length"))
      = true) :
    formatInstallationGuide r
      = .ok (if truthy (optMember r "content") then optMember r "content"
             else .str "No installation steps available") := by
  unfold formatInstallationGuide
  rw [getField_eq_ok r "content" hnr, except_bind_ok,
    getField_eq_ok r "data" hnr, except_bind_ok, hguard]
  rfl

theorem sep2_ne_empty (a c : String) : a ++ "\n\n" ++ c ≠ "" := by
  intro h
  have hl : (a ++ "\n\n" ++ c).length = (0 : Nat) := by
    rw [h]
    rfl
  rw [String.length_append, String.length_append,
    show ("\n\n" : String).length = 2 from rfl] at hl
  omega

theorem pre_error_ne_empty (x : String) : "Error: " ++ x ≠ "" := by
  intro h
  have hl : ("Error: " ++ x).length = (0 : Nat) := by
    rw [h]
    rfl
  rw [String.length_append,
    show ("Error: " : String).length = 7 from rfl] at hl
  omega

theorem exists_of_isNonemptyStr {v : JSVal} (h : isNonemptyStr v = true) :
    ∃ c, v = JSVal.str c ∧ c ≠ "" := by
  cases v <;> simp [isNonemptyStr] at h ⊢
  exact h

theorem wf_of_guard {b w : Bool} (h : (!b || w) = true) (hb : b = true) :
    w = true := by
  rw [hb] at h
  simpa using h

theorem sep3_ne_empty (a b c : String) : a ++ "\n\n" ++ b ++ c ≠ "" := by
  intro h
  have hl : (a ++ "\n\n" ++ b ++ c).length = (0 : Nat) := by
    rw [h]
    rfl
  rw [String.length_append, String.length_append, String.length_append,
    show ("\n\n" : String).length = 2 from rfl] at hl
  omega

/-- On a non-nullish `response` with non-empty string `content` and
well-formed `data` for the formatted tags, every `switch` branch yields
a non-empty string without throwing. -/
theorem switchContent_wf (ty r : JSVal) (c : String)
    (hnr : notNullish r = true)
    (hc : optMember r "content" = .str c) (hcne : c ≠ "")
    (hwp : strictEqStr ty "product_results" = true →
      wfProductsData (optMember r "data") = true)
    (hwg : strictEqStr ty "installation_guide" = true →
      wfGuideData (optMember r "data") = true)
    (hwt : strictEqStr ty "troubleshooting" = true →
      wfTroubleData (optMember r "data") = true) :
    ∃ s, switchContent ty r = .ok (.str s) ∧ s ≠ "" := by
  have hct : truthy (optMember r "content") = true := by
    rw [hc]
    simp [truthy, hcne]
  have hcontent : getField r "content" = .ok (.str c) := by
    rw [getField_eq_ok r "content" hnr, hc]
  unfold switchContent
  cases h1 : strictEqStr ty "text" with
  | true =>
    rw [if_pos rfl, hcontent]
    exact ⟨c, rfl, hcne⟩
  | false =>
    cases h2 : strictEqStr ty "product_results" with
    | true =>
      simp only [Bool.false_eq_true, if_false, if_true]
      have hw := hwp h2
      rw [wfProductsData] at hw
      rcases Bool.eq_false_or_eq_true (!truthy (optMember r "data")
          || !truthy (optMember (optMember r "data") "products")
          || strictEqZero (optMember (optMember (optMember r "data") "products") "length"))
        with hg | hg
      · rw [formatProductResults_early r hnr hg, if_pos hct, hc]
        exact ⟨c, rfl, hcne⟩
      · rw [Bool.or_eq_false_iff, Bool.or_eq_false_iff] at hg
        have ha := hg.1.1
        have hb := hg.1.2
        have hc2 := hg.2
        have hd : truthy (optMember r "data") = true := by simpa using ha
        have hpt : truthy (optMember (optMember r "data") "products") = true := by
          simpa using hb
        have hw2 : wfListField (optMember (optMember r "data") "products")
            wfProduct = true := wf_of_guard hw hd
        rw [wfListField, hpt] at hw2
        simp only [Bool.not_true, Bool.false_or] at hw2
        obtain ⟨l, hl, hall⟩ := exists_of_allElems hw2
        have hlne : l ≠ [] := by
          intro hnil
          subst hnil
          rw [hl] at hc2
          simp [optMember, strictEqZero] at hc2
        rw [formatProductResults_main r l hnr hl hlne hall]
        exact ⟨toJSString (optMember r "content") ++ "\n\n" ++ productEntries l 0,
          rfl, sep2_ne_empty _ _⟩
    | false =>
      cases h3 : strictEqStr ty "installation_guide" with
      | true =>
        simp only [Bool.false_eq_true, if_false, if_true]
        have hw := hwg h3
        rw [wfGuideData] at hw
        rcases Bool.eq_false_or_eq_true (!truthy (optMember r "data")
            || !truthy (optMember (optMember r "data") "steps")
            || strictEqZero (optMember (optMember (optMember r "data") "steps") "length"))
          with hg | hg
        · rw [formatInstallationGuide_early r hnr hg, if_pos hct, hc]
          exact ⟨c, rfl, hcne⟩
        · rw [Bool.or_eq_false_iff, Bool.or_eq_false_iff] at hg
          have ha := hg.1.1
          have hb := hg.1.2
          have hc2 := hg.2
          have hd : truthy (optMember r "data") = true := by simpa using ha
          have hpt : truthy (optMember (optMember r "data") "steps") = true := by
            simpa using hb
          have hw2 : wfListField (optMember (optMember r "data") "steps")
              wfStep = true := wf_of_guard hw hd
          rw [wfListField, hpt] at hw2
          simp only [Bool.not_true, Bool.false_or] at hw2
          obtain ⟨l, hl, hall⟩ := exists_of_allElems hw2
          have hlne : l ≠ [] := by
            intro hnil
            subst hnil
            rw [hl] at hc2
            simp [optMember, strictEqZero] at hc2
          rw [formatInstallationGuide_main r l hnr hl hlne hall]
          exact ⟨_, rfl, sep2_ne_empty _ _⟩
      | false =>
        cases h4 : strictEqStr ty "troubleshooting" with
        | true =>
          simp only [Bool.false_eq_true, if_false, if_true]
          have hw := hwt h4
          rw [formatTroubleshooting_eq r hnr hw, except_bind_ok]
          exact ⟨_, rfl, sep3_ne_empty _ _ _⟩
        | false =>
          cases h5 : strictEqStr ty "out_of_scope" with
          | true =>
            simp only [Bool.false_eq_true, if_false, if_true]
            rw [hcontent]
            exact ⟨c, rfl, hcne⟩
          | false =>
            cases h6 : strictEqStr ty "error" with
            | true =>
              simp only [Bool.false_eq_true, if_false, if_true]
              rw [hcontent, except_bind_ok]
              exact ⟨"Error: " ++ c, rfl, pre_error_ne_empty c⟩
            | false =>
              simp only [Bool.false_eq_true, if_false]
              rw [hcontent]
              exact ⟨c, rfl, hcne⟩

/-- Counterexample for C1 as stated: on `{success: true}` with no
`response` at all, the normalizer throws (`response.type` is a property
access on `undefined`), so normalization does not return a display
string on every payload. -/
theorem claim1_counterexample :
    formatBackendResponse (JSVal.obj [("success", .bool true)])
      = .error "TypeError: Cannot read properties of undefined (reading type)" := rfl

/-- C1 (amended): for every well-formed payload (`wfPayload`: the
payload is not nullish; on the failure branch a present truthy
`error.message` is a string; on the success branch `response` is
present and non-nullish with a non-empty string `content`, and the
`data` of the formatted tags is well-formed), normalization returns an
assistant message with a non-empty string content and never throws. -/
theorem claim1_amended :
    ∀ p, wfPayload p = true →
      ∃ s, formatBackendResponse p = .ok ⟨"assistant", .str s⟩ ∧ s ≠ "" := by
  intro p hwf
  rw [wfPayload, Bool.and_eq_true] at hwf
  obtain ⟨hp, hrest⟩ := hwf
  rcases Bool.eq_false_or_eq_true (truthy (optMember p "success")) with hsuc | hsuc
  · rw [if_pos hsuc] at hrest
    rw [Bool.and_eq_true, Bool.and_eq_true, Bool.and_eq_true,
      Bool.and_eq_true] at hrest
    have hnr := hrest.1.1.1.1
    have hcne0 := hrest.1.1.1.2
    have hA := hrest.1.1.2
    have hB := hrest.1.2
    have hC := hrest.2
    obtain ⟨c, hc, hcne⟩ := exists_of_isNonemptyStr hcne0
    have hs : getField p "success" = .ok (optMember p "success") :=
      getField_eq_ok p _ hp
    have hr : getField p "response" = .ok (optMember p "response") :=
      getField_eq_ok p _ hp
    rw [fbr_success_eq p _ _ hs hsuc hr hnr]
    obtain ⟨s, hsw, hne⟩ := switchContent_wf
      (optMember (optMember p "response") "type") (optMember p "response") c
      hnr hc hcne
      (fun h => wf_of_guard hA h) (fun h => wf_of_guard hB h)
      (fun h => wf_of_guard hC h)
    refine ⟨s, ?_, hne⟩
    rw [hsw, except_bind_ok]
    rfl
  · rw [hsuc] at hrest
    simp only [Bool.false_eq_true, if_false] at hrest
    have hs : getField p "success" = .ok (optMember p "success") :=
      getField_eq_ok p _ hp
    rw [fbr_failure_eq p _ hs hsuc]
    rcases Bool.eq_false_or_eq_true
      (truthy (optMember (optMember p "error") "message")) with hm | hm
    · cases hmem : optMember (optMember p "error") "message" with
      | str s0 =>
        rw [hmem] at hm
        refine ⟨s0, ?_, ?_⟩
        · rw [if_pos hm]
        · simpa [truthy] using hm
      | undef =>
        rw [hmem] at hm
        simp [truthy] at hm
      | null =>
        rw [hmem] at hm
        simp [truthy] at hm
      | bool b =>
        rw [hmem] at hrest hm
        simp_all [strOrFalsy, truthy]
      | num n =>
        rw [hmem] at hrest hm
        simp_all [strOrFalsy, truthy]
      | arr xs =>
        rw [hmem] at hrest
        simp [strOrFalsy, truthy] at hrest
      | obj fs =>
        rw [hmem] at hrest
        simp [strOrFalsy, truthy] at hrest
    · refine ⟨"An error occurred", ?_, by decide⟩
      rw [hm]
      simp

/-- Witness for C1's amended claim at a concrete well-formed text
payload. -/
theorem claim1_witness :
    wfPayload (JSVal.obj [("success", .bool true),
        ("response", .obj [("type", .str "text"), ("content", .str "Hello")])])
      = true
    ∧ ∃ s, formatBackendResponse (JSVal.obj [("success", .bool true),
        ("response", .obj [("type", .str "text"), ("content", .str "Hello")])])
      = .ok ⟨"assistant", .str s⟩ ∧ s ≠ "" :=
  ⟨rfl, claim1_amended _ rfl⟩
